import Mathlib

/-!
Verification development for the iot_mqtt_server repository.

The file shallowly embeds the core of the server:
- the ingestion pipeline (lib/mqtt-client.ts, MqttService.handleMessage and
  MqttService.broadcastToClients),
- the aggregation engine (lib/data-service.ts, DataService.getHistoricalData
  and DataService.groupDataByTimeRange, DataService.getCurrentReading),
- the historical HTTP route (app/api/historical/route.ts),
- the dashboard WebSocket reconnection state machine
  (the WebSocketProvider onclose/onopen handlers).

Numbers are modelled as rationals, JavaScript Date values as a civil
calendar record at minute resolution, and the persistent stores as lists.
Fallible or stateful code is modelled by explicit state passing.
-/

namespace IotMqtt

set_option maxRecDepth 8000

/-! ## Time model

JavaScript Date values are modelled as civil calendar date plus time of day,
at minute resolution (the system's readings and bucket boundaries are all
minute-granular).  Months are numbered 1..12 (the TypeScript code reads and
rewrites the zero-based getMonth value consistently, so the two encodings are
isomorphic).  All times are in one fixed (local) time zone. -/

/-- Civil calendar date and time of day, mirroring a JavaScript Date. -/
structure DateTime where
  year : Int
  month : Int
  day : Int
  hour : Int
  minute : Int
deriving DecidableEq, Repr

/-- Days from the civil epoch 1970-01-01 to the given civil date
(the standard era-based civil-calendar day count that underlies
JavaScript Date arithmetic). -/
def daysFromCivil (y m d : Int) : Int :=
  let yAdj := y - (if m ≤ 2 then 1 else 0)
  let era := (if 0 ≤ yAdj then yAdj else yAdj - 399) / 400
  let yoe := yAdj - era * 400
  let mp := (m + 9) % 12
  let doy := (153 * mp + 2) / 5 + d - 1
  let doe := yoe * 365 + yoe / 4 - yoe / 100 + doy
  era * 146097 + doe - 719468

/-- Minutes since the epoch instant, the analogue of Date.getTime. -/
def getTime (t : DateTime) : Int :=
  daysFromCivil t.year t.month t.day * 1440 + t.hour * 60 + t.minute

/-- Day of week of an epoch day number, 0 = Sunday, as Date.getDay. -/
def dayOfWeek (dayNumber : Int) : Int :=
  (dayNumber + 4) % 7

/-- Range check used when constructing a DateTime from parsed components. -/
def buildDateTime (y mo d h mi : Nat) : Option DateTime :=
  if 1 ≤ mo ∧ mo ≤ 12 ∧ 1 ≤ d ∧ d ≤ 31 ∧ h ≤ 23 ∧ mi ≤ 59 then
    some { year := (y : Int), month := (mo : Int), day := (d : Int),
           hour := (h : Int), minute := (mi : Int) }
  else
    none

/-- Splitting of a character list at every occurrence of a separator. -/
def splitOnChar (c : Char) : List Char → List (List Char)
  | [] => [[]]
  | x :: xs =>
    let rest := splitOnChar c xs
    if x = c then [] :: rest
    else
      match rest with
      | [] => [[x]]
      | r :: rs => (x :: r) :: rs

/-- Decimal digit-string reading, none when any character is not a digit. -/
def digitsToNat (l : List Char) : Option Nat :=
  if l ≠ [] ∧ l.all Char.isDigit then
    some (l.foldl (fun a c => a * 10 + (c.toNat - 48)) 0)
  else none

/-- Platform date parsing, the analogue of the JavaScript expression
new Date(string) for the ISO-like subset the system relies on
(date, or date plus hours and minutes, in one fixed zone);
none plays the role of an Invalid Date result for every other string. -/
def parseJsDate (s : String) : Option DateTime :=
  match splitOnChar 'T' s.data with
  | [datePart, timePart] =>
    match splitOnChar '-' datePart, splitOnChar ':' timePart with
    | [ys, ms, ds], [hs, mis] =>
      match digitsToNat ys, digitsToNat ms, digitsToNat ds,
            digitsToNat hs, digitsToNat mis with
      | some y, some mo, some d, some h, some mi => buildDateTime y mo d h mi
      | _, _, _, _, _ => none
    | _, _ => none
  | [datePart] =>
    match splitOnChar '-' datePart with
    | [ys, ms, ds] =>
      match digitsToNat ys, digitsToNat ms, digitsToNat ds with
      | some y, some mo, some d => buildDateTime y mo d 0 0
      | _, _, _ => none
    | _ => none
  | _ => none

/-! ## Data model (lib/types.ts and the persisted layout) -/

/-- A persisted sensor reading.  The storage schema
(migrations/0001_init.sql) declares the temperature and humidity columns
nullable, so the fields are optional; the query layer yields null (modelled
as none) for a missing value. -/
structure Reading where
  deviceId : String
  temperature : Option ℚ
  humidity : Option ℚ
  timestamp : DateTime
deriving DecidableEq, Repr

/-- A device liveness row, keyed uniquely by deviceId. -/
structure DeviceStatus where
  deviceId : String
  lastSeen : DateTime
  isOnline : Bool
deriving DecidableEq, Repr

/-- The closed TimeGranularity union type of lib/types.ts. -/
inductive TimeGranularity where
  | g1d | g1m | g3m | g6m | g1y
deriving DecidableEq, Repr

/-- A parsed MQTT payload.  The temperature and humidity fields hold
some value exactly when the JSON field is present and of JavaScript type
number (any other value fails the typeof check in handleMessage and is
indistinguishable from absence for the rest of the pipeline). -/
structure MqttMessage where
  temperature : Option ℚ
  humidity : Option ℚ
  timestamp : Option String
  deviceId : Option String
deriving DecidableEq, Repr

/-- A WebSocket client as the Fan-out Hub observes it: its readyState
(1 = OPEN) and whether a send call on it would throw. -/
structure Client where
  id : Nat
  readyState : Nat
  sendThrows : Bool
deriving DecidableEq, Repr

/-- The mutable state the ingestion pipeline acts on: the two stores,
the registered WebSocket clients, and the log of broadcast events. -/
structure ServerState where
  readings : List Reading
  statuses : List DeviceStatus
  wsClients : List Client
  broadcasts : List Reading
deriving DecidableEq, Repr

/-- JavaScript default via logical-or: null, undefined and the empty
string are falsy, so value or-default replaces them by the default. -/
def jsOrString (v : Option String) (dflt : String) : String :=
  match v with
  | none => dflt
  | some s => if s = "" then dflt else s

/-! ## Aggregation engine (lib/data-service.ts) -/

/-- Lookback window, in minutes, of the startDate switch in
DataService.getHistoricalData (the groupBy variable set alongside it is
never read again; grouping re-dispatches on the granularity). -/
def granularityStartOffset : TimeGranularity → Int
  | .g1d => 24 * 60
  | .g1m => 30 * 24 * 60
  | .g3m => 90 * 24 * 60
  | .g6m => 180 * 24 * 60
  | .g1y => 365 * 24 * 60

/-- Bucket key of a reading timestamp under a granularity, as the instant
(in minutes since epoch) denoted by the ISO string key built in
DataService.groupDataByTimeRange: the hour for 1d, midnight of the day for
1m and 3m, midnight of the start of the week (getDate minus getDay, with
day-number normalization as in JavaScript setDate) for 6m, and midnight of
the first of the month for 1y.  The ISO-string representation used by the
source as a Map key is injective on instants, so the instant itself is a
faithful key. -/
def bucketKey (tr : TimeGranularity) (t : DateTime) : Int :=
  let dayNum := daysFromCivil t.year t.month t.day
  match tr with
  | .g1d => dayNum * 1440 + t.hour * 60
  | .g1m => dayNum * 1440
  | .g3m => dayNum * 1440
  | .g6m => (dayNum - dayOfWeek dayNum) * 1440
  | .g1y => daysFromCivil t.year t.month 1 * 1440

/-- One entry of the grouping Map: the bucket key and the two value arrays
the source pushes each reading's fields onto. -/
structure Group where
  timestamp : Int
  temperatures : List (Option ℚ)
  humidities : List (Option ℚ)
deriving DecidableEq, Repr

/-- One step of the grouping loop: push the reading's fields onto the
entry for the key, creating the entry (at insertion order position, i.e.
at the end) when absent — the JavaScript Map get/set/push sequence. -/
def addToGroups : List Group → Int → Reading → List Group
  | [], key, r => [⟨key, [r.temperature], [r.humidity]⟩]
  | g :: gs, key, r =>
    if g.timestamp = key then
      ⟨g.timestamp, g.temperatures ++ [r.temperature], g.humidities ++ [r.humidity]⟩ :: gs
    else
      g :: addToGroups gs key r

/-- The grouping Map after the forEach loop of groupDataByTimeRange. -/
def groupsOf (tr : TimeGranularity) (readings : List Reading) : List Group :=
  readings.foldl (fun acc r => addToGroups acc (bucketKey tr r.timestamp) r) []

/-- JavaScript summation reduce((a, b) => a + b, 0) over an array that may
hold nulls: null coerces to 0 when added to a number. -/
def jsSum (xs : List (Option ℚ)) : ℚ :=
  xs.foldl (fun a b => a + b.getD 0) 0

/-- An averaged bucket before presentation rounding. -/
structure AvgPoint where
  timestamp : Int
  temperature : ℚ
  humidity : ℚ
deriving DecidableEq, Repr

/-- Stable insertion of an element into a list sorted by an integer key. -/
def insertByKey {α : Type} (key : α → Int) (x : α) : List α → List α
  | [] => [x]
  | y :: ys => if key x < key y then x :: y :: ys else y :: insertByKey key x ys

/-- Stable sort by an integer key, the model of Array.prototype.sort with
a numeric comparator (stable per the modern JavaScript specification). -/
def sortByKey {α : Type} (key : α → Int) (l : List α) : List α :=
  l.foldl (fun acc x => insertByKey key x acc) []

/-- DataService.groupDataByTimeRange: group the readings by bucket key,
average each group's arrays, and sort by bucket timestamp ascending. -/
def groupDataByTimeRange (readings : List Reading) (timeRange : TimeGranularity) :
    List AvgPoint :=
  if readings.isEmpty then []
  else
    let result := (groupsOf timeRange readings).map (fun g =>
      { timestamp := g.timestamp
        temperature := jsSum g.temperatures / (g.temperatures.length : ℚ)
        humidity := jsSum g.humidities / (g.humidities.length : ℚ) : AvgPoint })
    sortByKey (fun p => p.timestamp) result

/-- Rounding to one decimal place, the model of Number(x.toFixed(1))
(nearest, ties away from zero). -/
def jsRound1 (q : ℚ) : ℚ :=
  if q < 0 then -(((Rat.floor (-(10 * q) + 1 / 2) : ℤ) : ℚ) / 10)
  else ((Rat.floor (10 * q + 1 / 2) : ℤ) : ℚ) / 10

/-- A presentation data point of getHistoricalData.  The locale-dependent
date and time display strings of the source's ChartDataPoint are
presentation-only copies of the timestamp and are omitted. -/
structure ChartDataPoint where
  timestamp : Int
  temperature : ℚ
  humidity : ℚ
deriving DecidableEq, Repr

/-- Presentation mapping applied to each averaged bucket. -/
def toChartDataPoint (p : AvgPoint) : ChartDataPoint :=
  { timestamp := p.timestamp
    temperature := jsRound1 p.temperature
    humidity := jsRound1 p.humidity }

/-- The findMany query issued by getHistoricalData: readings of the device
with timestamp at or after startDate, ordered by timestamp ascending. -/
def runFindMany (store : List Reading) (deviceId : String) (startDate : Int) :
    List Reading :=
  sortByKey (fun r => getTime r.timestamp)
    (store.filter (fun r => r.deviceId == deviceId && decide (startDate ≤ getTime r.timestamp)))

/-- Tail of DataService.getHistoricalData below the fetch: the try block
returns the grouped and presentation-mapped data of a successful fetch and
an empty array when the fetch (or anything after it) threw. -/
def getHistoricalDataFetched (res : Except String (List Reading))
    (timeRange : TimeGranularity) : List ChartDataPoint :=
  match res with
  | .error _ => []
  | .ok readings => (groupDataByTimeRange readings timeRange).map toChartDataPoint

/-- DataService.getHistoricalData on a store whose fetch succeeds. -/
def getHistoricalData (store : List Reading) (now : DateTime)
    (timeRange : TimeGranularity) (deviceId : String) : List ChartDataPoint :=
  let startDate := getTime now - granularityStartOffset timeRange
  getHistoricalDataFetched (.ok (runFindMany store deviceId startDate)) timeRange

/-- DataService.getCurrentReading: findFirst ordered by timestamp
descending. -/
def getCurrentReading (store : List Reading) (deviceId : String) : Option Reading :=
  (sortByKey (fun r => -(getTime r.timestamp))
    (store.filter (fun r => r.deviceId == deviceId))).head?

/-! ## Ingestion pipeline and fan-out hub (lib/mqtt-client.ts) -/

/-- MqttService.broadcastToClients over the registered client set:
a client with readyState OPEN (1) receives the serialized message, and a
throwing send is caught and answered by deleting that client from the set;
a client in any other readyState is skipped silently and stays registered.
Returns the client set after the call and the ids actually sent to. -/
def broadcastToClients : List Client → List Client × List Nat
  | [] => ([], [])
  | c :: rest =>
    let (keep, sent) := broadcastToClients rest
    if c.readyState = 1 then
      if c.sendThrows then (keep, sent)
      else (c :: keep, c.id :: sent)
    else (c :: keep, sent)

/-- Prisma deviceStatus.upsert keyed by deviceId: update the existing row,
else create one; lastSeen is the ingestion instant, isOnline true. -/
def upsertStatus : List DeviceStatus → String → DateTime → List DeviceStatus
  | [], deviceId, now => [⟨deviceId, now, true⟩]
  | st :: rest, deviceId, now =>
    if st.deviceId = deviceId then ⟨deviceId, now, true⟩ :: rest
    else st :: upsertStatus rest deviceId now

/-- Timestamp selection of handleMessage: the conditional expression
data.timestamp ? new Date(data.timestamp) : new Date() — a missing (or
falsy, i.e. empty) timestamp field yields the ingestion instant, any other
string goes through platform date parsing, whose Invalid Date outcome is
none. -/
def effectiveTimestamp (ts : Option String) (now : DateTime) : Option DateTime :=
  match ts with
  | none => some now
  | some s => if s = "" then some now else parseJsDate s

/-- MqttService.handleMessage on an already-parsed payload: reject (state
unchanged) unless both temperature and humidity are of type number; on
acceptance insert the reading, upsert the device status, and broadcast.
A message whose timestamp string fails to parse produces an Invalid Date,
which the storage layer rejects — the catch block then drops the message
with no state change. -/
def handleMessage (s : ServerState) (msg : MqttMessage) (now : DateTime) :
    ServerState :=
  match msg.temperature, msg.humidity with
  | some t, some h =>
    let deviceId := jsOrString msg.deviceId "esp32-01"
    match effectiveTimestamp msg.timestamp now with
    | none => s
    | some ts =>
      let reading : Reading :=
        { deviceId := deviceId, temperature := some t, humidity := some h,
          timestamp := ts }
      { readings := s.readings ++ [reading]
        statuses := upsertStatus s.statuses deviceId now
        wsClients := (broadcastToClients s.wsClients).1
        broadcasts := s.broadcasts ++ [reading] }
  | _, _ => s

/-! ## Historical HTTP route (app/api/historical/route.ts) -/

/-- Outcome of the historical GET route: a JSON payload or an error
response with its HTTP status. -/
inductive RouteResult where
  | ok (timeRange : TimeGranularity) (deviceId : String) (data : List ChartDataPoint)
  | clientError (status : Nat) (message : String)
deriving DecidableEq, Repr

/-- Membership test of the route's closed granularity allow-list,
as a mapping into the TimeGranularity union. -/
def parseGranularity (s : String) : Option TimeGranularity :=
  if s = "1d" then some .g1d
  else if s = "1m" then some .g1m
  else if s = "3m" then some .g3m
  else if s = "6m" then some .g6m
  else if s = "1y" then some .g1y
  else none

/-- The GET handler of the historical route: read the two query
parameters with their logical-or defaults, reject a timeRange outside the
closed set with a 400 client error, and otherwise answer with the data
service result. -/
def historicalGET (timeRangeParam deviceIdParam : Option String)
    (store : List Reading) (now : DateTime) : RouteResult :=
  let timeRange := jsOrString timeRangeParam "1d"
  let deviceId := jsOrString deviceIdParam "esp32-01"
  match parseGranularity timeRange with
  | none => .clientError 400 "Invalid time range. Must be one of: 1d, 1m, 3m, 6m, 1y"
  | some g => .ok g deviceId (getHistoricalData store now g deviceId)

/-! ## Dashboard WebSocket reconnection (WebSocketProvider) -/

/-- Connection status values of the provider. -/
inductive ConnStatus where
  | connecting | connected | disconnected | error
deriving DecidableEq, Repr

/-- The provider state the reconnection logic reads and writes: the
attempt counter, the connection status, and the delay of a scheduled
reconnect timer when one is pending. -/
structure WsState where
  reconnectAttempts : Nat
  connectionStatus : ConnStatus
  pendingReconnectDelay : Option Nat
deriving DecidableEq, Repr

/-- The provider's maxReconnectAttempts constant. -/
def maxReconnectAttempts : Nat := 5

/-- The onclose handler: mark disconnected; when the close was not a
normal closure (code 1000) and attempts remain, schedule a reconnect after
min(1000 * 2 ^ attempts, 10000) milliseconds; when the attempt budget is
exhausted, enter the error status instead. -/
def onClose (code : Nat) (s : WsState) : WsState :=
  if code ≠ 1000 ∧ s.reconnectAttempts < maxReconnectAttempts then
    { s with connectionStatus := ConnStatus.disconnected,
             pendingReconnectDelay := some (min (1000 * 2 ^ s.reconnectAttempts) 10000) }
  else if maxReconnectAttempts ≤ s.reconnectAttempts then
    { s with connectionStatus := ConnStatus.error }
  else
    { s with connectionStatus := ConnStatus.disconnected }

/-- The onopen handler: mark connected and reset the attempt counter. -/
def onOpen (s : WsState) : WsState :=
  { s with connectionStatus := ConnStatus.connected, reconnectAttempts := 0 }

/-- Firing of the scheduled reconnect timer: increment the attempt counter
and call connect (status connecting); with no pending timer nothing runs. -/
def fireReconnectTimer (s : WsState) : WsState :=
  match s.pendingReconnectDelay with
  | none => s
  | some _ =>
    { s with reconnectAttempts := s.reconnectAttempts + 1,
             connectionStatus := ConnStatus.connecting,
             pendingReconnectDelay := none }

/-- Events driving the provider state. -/
inductive WsEvent where
  | opened
  | closed (code : Nat)
  | timer
deriving DecidableEq, Repr

/-- One provider transition. -/
def wsStep (s : WsState) : WsEvent → WsState
  | .opened => onOpen s
  | .closed code => onClose code s
  | .timer => fireReconnectTimer s

/-! ## Lemmas about the stable sort -/

theorem mem_insertByKey {α : Type} (key : α → Int) (x y : α) (l : List α) :
    y ∈ insertByKey key x l ↔ y = x ∨ y ∈ l := by
  induction l with
  | nil => simp [insertByKey]
  | cons z zs ih =>
    by_cases h : key x < key z
    · simp [insertByKey, h]
    · simp only [insertByKey, if_neg h, List.mem_cons, ih]
      tauto

theorem sorted_insertByKey {α : Type} (key : α → Int) (x : α) (l : List α)
    (hl : l.Pairwise (fun a b => key a ≤ key b)) :
    (insertByKey key x l).Pairwise (fun a b => key a ≤ key b) := by
  induction l with
  | nil => simp [insertByKey]
  | cons z zs ih =>
    rcases List.pairwise_cons.mp hl with ⟨hz, hzs⟩
    by_cases h : key x < key z
    · rw [insertByKey, if_pos h]
      refine List.pairwise_cons.mpr ⟨?_, hl⟩
      intro y hy
      rcases List.mem_cons.mp hy with rfl | hy
      · exact le_of_lt h
      · exact le_trans (le_of_lt h) (hz y hy)
    · rw [insertByKey, if_neg h]
      refine List.pairwise_cons.mpr ⟨?_, ih hzs⟩
      intro y hy
      rcases (mem_insertByKey key x y zs).mp hy with rfl | hy
      · exact not_lt.mp h
      · exact hz y hy

theorem mem_sortByKey {α : Type} (key : α → Int) (y : α) (l : List α) :
    y ∈ sortByKey key l ↔ y ∈ l := by
  suffices h : ∀ acc : List α, y ∈ l.foldl (fun a x => insertByKey key x a) acc ↔ y ∈ acc ∨ y ∈ l by
    simpa [sortByKey] using h []
  induction l with
  | nil => intro acc; simp
  | cons z zs ih =>
    intro acc
    simp only [List.foldl_cons, ih, mem_insertByKey, List.mem_cons]
    tauto

theorem sorted_sortByKey {α : Type} (key : α → Int) (l : List α) :
    (sortByKey key l).Pairwise (fun a b => key a ≤ key b) := by
  suffices h : ∀ acc : List α, acc.Pairwise (fun a b => key a ≤ key b) →
      (l.foldl (fun a x => insertByKey key x a) acc).Pairwise (fun a b => key a ≤ key b) by
    exact h [] (by simp)
  induction l with
  | nil => intro acc hacc; simpa using hacc
  | cons z zs ih =>
    intro acc hacc
    exact ih (insertByKey key z acc) (sorted_insertByKey key z acc hacc)

/-! ## Characterization of the grouping Map -/

/-- Lookup of the grouping Map entry for a key. -/
def findGroup (gs : List Group) (k : Int) : Option Group :=
  gs.find? (fun g => g.timestamp == k)

/-- Combined effect on one Map entry of pushing a batch of readings. -/
def combineGroup (k : Int) (g0 : Option Group) (ts hs : List (Option ℚ)) :
    Option Group :=
  match g0 with
  | none => if ts.isEmpty then none else some ⟨k, ts, hs⟩
  | some g => some ⟨g.timestamp, g.temperatures ++ ts, g.humidities ++ hs⟩

theorem findGroup_addToGroups_self (gs : List Group) (k : Int) (r : Reading) :
    findGroup (addToGroups gs k r) k =
      some (match findGroup gs k with
        | none => ⟨k, [r.temperature], [r.humidity]⟩
        | some g => ⟨g.timestamp, g.temperatures ++ [r.temperature],
                     g.humidities ++ [r.humidity]⟩) := by
  induction gs with
  | nil => simp [addToGroups, findGroup]
  | cons g gs ih =>
    by_cases h : g.timestamp = k
    · simp [addToGroups, if_pos h, findGroup, List.find?, h]
    · rw [addToGroups, if_neg h]
      simp only [findGroup, List.find?] at ih ⊢
      have hbeq : (g.timestamp == k) = false := by simpa using h
      simp only [hbeq, ih]

theorem findGroup_addToGroups_other (gs : List Group) (k : Int) (r : Reading)
    (k' : Int) (h : k' ≠ k) :
    findGroup (addToGroups gs k r) k' = findGroup gs k' := by
  induction gs with
  | nil =>
    simp [addToGroups, findGroup, List.find?, (by simpa using h.symm : (k == k') = false)]
  | cons g gs ih =>
    by_cases hg : g.timestamp = k
    · have hkk : (k == k') = false := by simpa using (Ne.symm h)
      simp [addToGroups, if_pos hg, findGroup, List.find?, hg, hkk]
    · rw [addToGroups, if_neg hg]
      simp only [findGroup, List.find?] at ih ⊢
      cases hbeq : (g.timestamp == k') with
      | true => rfl
      | false => exact ih

theorem foldl_addToGroups_find (tr : TimeGranularity) (rs : List Reading) :
    ∀ (acc : List Group) (k : Int),
      findGroup (rs.foldl (fun a r => addToGroups a (bucketKey tr r.timestamp) r) acc) k =
        combineGroup k (findGroup acc k)
          ((rs.filter (fun r => bucketKey tr r.timestamp == k)).map (fun r => r.temperature))
          ((rs.filter (fun r => bucketKey tr r.timestamp == k)).map (fun r => r.humidity)) := by
  induction rs with
  | nil =>
    intro acc k
    simp only [List.foldl_nil, List.filter_nil, List.map_nil, combineGroup]
    cases hf : findGroup acc k with
    | none => simp
    | some g => simp
  | cons r rs ih =>
    intro acc k
    simp only [List.foldl_cons]
    rw [ih]
    by_cases hk : bucketKey tr r.timestamp = k
    · subst hk
      rw [findGroup_addToGroups_self]
      simp only [List.filter_cons, beq_self_eq_true, if_pos, List.map_cons]
      cases hf : findGroup acc (bucketKey tr r.timestamp) with
      | none => simp [combineGroup]
      | some g => simp [combineGroup]
    · have hbeq : (bucketKey tr r.timestamp == k) = false := by simpa using hk
      rw [findGroup_addToGroups_other _ _ _ _ (fun h => hk h.symm)]
      simp only [List.filter_cons, hbeq, cond_false, if_neg]
      simp [hbeq]

theorem findGroup_groupsOf (tr : TimeGranularity) (rs : List Reading) (k : Int) :
    findGroup (groupsOf tr rs) k =
      (if (rs.filter (fun r => bucketKey tr r.timestamp == k)).isEmpty then none
       else some ⟨k, (rs.filter (fun r => bucketKey tr r.timestamp == k)).map (fun r => r.temperature),
                     (rs.filter (fun r => bucketKey tr r.timestamp == k)).map (fun r => r.humidity)⟩) := by
  rw [groupsOf, foldl_addToGroups_find]
  simp [findGroup, combineGroup]

theorem keys_addToGroups (gs : List Group) (k : Int) (r : Reading) :
    (addToGroups gs k r).map (fun g => g.timestamp) =
      if k ∈ gs.map (fun g => g.timestamp) then gs.map (fun g => g.timestamp)
      else gs.map (fun g => g.timestamp) ++ [k] := by
  induction gs with
  | nil => simp [addToGroups]
  | cons g gs ih =>
    by_cases h : g.timestamp = k
    · simp [addToGroups, if_pos h, h]
    · rw [addToGroups, if_neg h]
      simp only [List.map_cons, List.mem_cons, ih]
      by_cases hmem : k ∈ gs.map (fun g => g.timestamp)
      · simp [hmem, if_pos (Or.inr hmem)]
      · have hne : ¬(k = g.timestamp) := fun hk => h hk.symm
        have : ¬(k = g.timestamp ∨ k ∈ gs.map (fun g => g.timestamp)) := by
          rintro (rfl | hk)
          · exact h rfl
          · exact hmem hk
        simp [hmem, this, hne]

theorem nodupKeys_groupsOf (tr : TimeGranularity) (rs : List Reading) :
    ((groupsOf tr rs).map (fun g => g.timestamp)).Nodup := by
  suffices h : ∀ acc : List Group, (acc.map (fun g => g.timestamp)).Nodup →
      ((rs.foldl (fun a r => addToGroups a (bucketKey tr r.timestamp) r) acc).map
        (fun g => g.timestamp)).Nodup by
    exact h [] (by simp)
  induction rs with
  | nil => intro acc hacc; simpa using hacc
  | cons r rs ih =>
    intro acc hacc
    refine ih _ ?_
    rw [keys_addToGroups]
    by_cases hmem : bucketKey tr r.timestamp ∈ acc.map (fun g => g.timestamp)
    · simpa [hmem] using hacc
    · simpa [hmem] using List.Nodup.append hacc (by simp) (by simpa using hmem)

theorem findGroup_of_mem (gs : List Group)
    (hnd : (gs.map (fun g => g.timestamp)).Nodup) (g : Group) (hg : g ∈ gs) :
    findGroup gs g.timestamp = some g := by
  induction gs with
  | nil => cases hg
  | cons g0 gs ih =>
    rcases List.mem_cons.mp hg with rfl | hg
    · simp [findGroup, List.find?]
    · have hne : g0.timestamp ≠ g.timestamp := by
        intro heq
        have : g.timestamp ∈ gs.map (fun g => g.timestamp) :=
          List.mem_map.mpr ⟨g, hg, rfl⟩
        rw [List.map_cons, List.nodup_cons] at hnd
        exact hnd.1 (heq ▸ this)
      have hbeq : (g0.timestamp == g.timestamp) = false := by simpa using hne
      simp only [findGroup, List.find?, hbeq]
      exact ih (by rw [List.map_cons, List.nodup_cons] at hnd; exact hnd.2) hg

/-- Every group the aggregation builds holds exactly the readings whose
bucket key equals its timestamp, in input order, and is nonempty. -/
theorem mem_groupsOf_char (tr : TimeGranularity) (rs : List Reading) (g : Group)
    (hg : g ∈ groupsOf tr rs) :
    rs.filter (fun r => bucketKey tr r.timestamp == g.timestamp) ≠ [] ∧
      g.temperatures = (rs.filter (fun r => bucketKey tr r.timestamp == g.timestamp)).map
        (fun r => r.temperature) ∧
      g.humidities = (rs.filter (fun r => bucketKey tr r.timestamp == g.timestamp)).map
        (fun r => r.humidity) := by
  have h1 := findGroup_of_mem _ (nodupKeys_groupsOf tr rs) g hg
  rw [findGroup_groupsOf] at h1
  by_cases he : (rs.filter (fun r => bucketKey tr r.timestamp == g.timestamp)).isEmpty
  · rw [if_pos he] at h1; cases h1
  · rw [if_neg he] at h1
    refine ⟨by simpa [List.isEmpty_iff] using he, ?_, ?_⟩
    · exact congrArg Group.temperatures (Option.some_injective _ h1).symm
    · exact congrArg Group.humidities (Option.some_injective _ h1).symm

/-- Every bucket the aggregation returns averages exactly the readings
whose bucket key equals its timestamp: per field, the JavaScript running
sum divided by the number of readings in the bucket. -/
theorem groupDataByTimeRange_char (rs : List Reading) (tr : TimeGranularity)
    (p : AvgPoint) (hp : p ∈ groupDataByTimeRange rs tr) :
    rs.filter (fun r => bucketKey tr r.timestamp == p.timestamp) ≠ [] ∧
      p.temperature =
        jsSum ((rs.filter (fun r => bucketKey tr r.timestamp == p.timestamp)).map
            (fun r => r.temperature)) /
          (((rs.filter (fun r => bucketKey tr r.timestamp == p.timestamp)).length : ℚ)) ∧
      p.humidity =
        jsSum ((rs.filter (fun r => bucketKey tr r.timestamp == p.timestamp)).map
            (fun r => r.humidity)) /
          (((rs.filter (fun r => bucketKey tr r.timestamp == p.timestamp)).length : ℚ)) := by
  rw [groupDataByTimeRange] at hp
  by_cases he : rs.isEmpty
  · rw [if_pos he] at hp; cases hp
  · rw [if_neg he] at hp
    have hp2 := (mem_sortByKey _ _ _).mp hp
    rcases List.mem_map.mp hp2 with ⟨g, hg, rfl⟩
    rcases mem_groupsOf_char tr rs g hg with ⟨hne, ht, hh⟩
    refine ⟨hne, ?_, ?_⟩
    · simp only [ht]
      rw [List.length_map]
    · simp only [hh]
      rw [List.length_map]

/-- The aggregation output is sorted by bucket timestamp ascending. -/
theorem groupDataByTimeRange_sorted (rs : List Reading) (tr : TimeGranularity) :
    (groupDataByTimeRange rs tr).Pairwise (fun a b => a.timestamp ≤ b.timestamp) := by
  rw [groupDataByTimeRange]
  by_cases he : rs.isEmpty
  · rw [if_pos he]
    exact List.Pairwise.nil
  · rw [if_neg he]
    exact sorted_sortByKey _ _

/-! ## Lemmas about the device-status upsert -/

theorem upsertStatus_countP_self (sts : List DeviceStatus) (d : String) (now : DateTime)
    (h : sts.countP (fun st => st.deviceId == d) ≤ 1) :
    (upsertStatus sts d now).countP (fun st => st.deviceId == d) = 1 := by
  induction sts with
  | nil => simp [upsertStatus, List.countP_cons]
  | cons st rest ih =>
    by_cases hd : st.deviceId = d
    · rw [upsertStatus, if_pos hd]
      rw [List.countP_cons, if_pos (by simpa using hd)] at h
      have : rest.countP (fun st => st.deviceId == d) = 0 := by omega
      simp [List.countP_cons, this]
    · rw [upsertStatus, if_neg hd]
      rw [List.countP_cons, if_neg (by simpa using hd)] at h
      rw [List.countP_cons, if_neg (by simpa using hd)]
      simpa using ih (by simpa using h)

theorem upsertStatus_countP_other (sts : List DeviceStatus) (d : String) (now : DateTime)
    (e : String) (he : e ≠ d) :
    (upsertStatus sts d now).countP (fun st => st.deviceId == e) =
      sts.countP (fun st => st.deviceId == e) := by
  induction sts with
  | nil => simp [upsertStatus, List.countP_cons, (by simpa using he.symm : (d == e) = false)]
  | cons st rest ih =>
    by_cases hd : st.deviceId = d
    · rw [upsertStatus, if_pos hd]
      have h1 : (d == e) = false := by simpa using he.symm
      have h2 : (st.deviceId == e) = false := by simp [hd, he.symm]
      simp [List.countP_cons, h1, h2]
    · rw [upsertStatus, if_neg hd]
      simp [List.countP_cons, ih]

theorem upsertStatus_mem (sts : List DeviceStatus) (d : String) (now : DateTime) :
    (⟨d, now, true⟩ : DeviceStatus) ∈ upsertStatus sts d now := by
  induction sts with
  | nil => simp [upsertStatus]
  | cons st rest ih =>
    by_cases hd : st.deviceId = d
    · rw [upsertStatus, if_pos hd]; exact List.mem_cons_self _ _
    · rw [upsertStatus, if_neg hd]; exact List.mem_cons_of_mem _ ih

/-! ## Lemmas about the ingestion pipeline -/

/-- Rejection: a message failing the typeof validation leaves the whole
server state unchanged. -/
theorem handleMessage_rejected (s : ServerState) (msg : MqttMessage) (now : DateTime)
    (h : msg.temperature = none ∨ msg.humidity = none) :
    handleMessage s msg now = s := by
  rcases h with h | h <;>
    (rw [handleMessage]) <;>
    (cases ht : msg.temperature <;> cases hh : msg.humidity <;>
      simp_all)

/-- Rejection at persistence: an accepted payload whose timestamp string
produces an Invalid Date is dropped by the storage write, leaving the
state unchanged. -/
theorem handleMessage_invalidDate (s : ServerState) (msg : MqttMessage) (now : DateTime)
    (t h : ℚ) (ht : msg.temperature = some t) (hh : msg.humidity = some h)
    (hts : effectiveTimestamp msg.timestamp now = none) :
    handleMessage s msg now = s := by
  rw [handleMessage, ht, hh, hts]

/-- Acceptance: a message with both fields numeric and a storable
timestamp appends one reading, upserts the device status, broadcasts
once, and updates the client set via the broadcast. -/
theorem handleMessage_accepted (s : ServerState) (msg : MqttMessage) (now : DateTime)
    (t h : ℚ) (ts : DateTime) (ht : msg.temperature = some t) (hh : msg.humidity = some h)
    (hts : effectiveTimestamp msg.timestamp now = some ts) :
    handleMessage s msg now =
      { readings := s.readings ++
          [⟨jsOrString msg.deviceId "esp32-01", some t, some h, ts⟩]
        statuses := upsertStatus s.statuses (jsOrString msg.deviceId "esp32-01") now
        wsClients := (broadcastToClients s.wsClients).1
        broadcasts := s.broadcasts ++
          [⟨jsOrString msg.deviceId "esp32-01", some t, some h, ts⟩] } := by
  rw [handleMessage, ht, hh, hts]

/-! ## Lemmas about the fan-out hub -/

/-- The broadcast keeps exactly the clients whose send does not throw:
open clients that throw are deleted; every client not in the OPEN state is
skipped and stays registered. -/
theorem broadcastToClients_filter (cs : List Client) :
    (broadcastToClients cs).1 =
      cs.filter (fun c => !(c.readyState == 1 && c.sendThrows)) := by
  induction cs with
  | nil => simp [broadcastToClients]
  | cons c rest ih =>
    by_cases h1 : c.readyState = 1
    · by_cases h2 : c.sendThrows
      · simp [broadcastToClients, h1, h2, List.filter_cons, ih]
      · simp [broadcastToClients, h1, h2, List.filter_cons, ih]
    · simp [broadcastToClients, h1, List.filter_cons, ih]

theorem filter_not_length {α : Type} (p : α → Bool) (l : List α) :
    (l.filter (fun a => !(p a))).length = l.length - l.countP p := by
  induction l with
  | nil => simp
  | cons a l ih =>
    have hle : l.countP p ≤ l.length := List.countP_le_length _
    cases h : p a <;> (simp [List.filter_cons, List.countP_cons, h, ih]; try omega)

/-- The broadcast removes exactly as many connections as have a throwing
send. -/
theorem broadcastToClients_length (cs : List Client) :
    (broadcastToClients cs).1.length =
      cs.length - cs.countP (fun c => c.readyState == 1 && c.sendThrows) := by
  rw [broadcastToClients_filter]
  exact filter_not_length _ _

/-! ## Concrete fixtures used by claim instances -/

/-- The server state before any message. -/
def emptyServerState : ServerState := ⟨[], [], [], []⟩

/-- A fixed ingestion instant used for concrete runs. -/
def sampleNow : DateTime := ⟨2024, 6, 15, 12, 0⟩

/-- The three readings of the aggregation scenario: 10:05, 10:40, 11:02
with temperatures 20, 22, 24 (humidities 50, 60, 70). -/
def scenarioStore : List Reading :=
  [⟨"esp32-01", some 20, some 50, ⟨2024, 6, 15, 10, 5⟩⟩,
   ⟨"esp32-01", some 22, some 60, ⟨2024, 6, 15, 10, 40⟩⟩,
   ⟨"esp32-01", some 24, some 70, ⟨2024, 6, 15, 11, 2⟩⟩]

/-! ## Claim C1 -/

/-- C1 counterexample: a message carrying exactly one well-formed numeric
field (temperature 25, humidity absent) is claimed to be accepted and to
proceed to persistence and broadcast; the code rejects it — nothing is
persisted and nothing is broadcast. -/
theorem claim1_counterexample :
    (handleMessage emptyServerState ⟨some 25, none, none, some "esp32-01"⟩
        sampleNow).readings = [] ∧
      (handleMessage emptyServerState ⟨some 25, none, none, some "esp32-01"⟩
        sampleNow).broadcasts = [] := by
  decide

/-- C1 (amended): the ingestion pipeline rejects a message (drops it, the
state is unchanged) whenever either temperature or humidity is not a
well-formed number; a message with both fields numeric (and a storable
timestamp) is accepted and proceeds to persistence and broadcast. -/
theorem claim1_theorem (s : ServerState) (msg : MqttMessage) (now : DateTime) :
    (msg.temperature = none ∨ msg.humidity = none → handleMessage s msg now = s) ∧
      (∀ t h ts, msg.temperature = some t → msg.humidity = some h →
        effectiveTimestamp msg.timestamp now = some ts →
        (handleMessage s msg now).readings =
            s.readings ++ [⟨jsOrString msg.deviceId "esp32-01", some t, some h, ts⟩] ∧
          (handleMessage s msg now).broadcasts =
            s.broadcasts ++ [⟨jsOrString msg.deviceId "esp32-01", some t, some h, ts⟩]) := by
  constructor
  · exact handleMessage_rejected s msg now
  · intro t h ts ht hh hts
    rw [handleMessage_accepted s msg now t h ts ht hh hts]
    exact ⟨rfl, rfl⟩

/-- C1 witness: the amended theorem at two concrete messages. -/
theorem claim1_witness :
    handleMessage emptyServerState ⟨none, some 60, none, none⟩ sampleNow =
        emptyServerState ∧
      (handleMessage emptyServerState ⟨some 25, some 60, none, none⟩
          sampleNow).readings = [⟨"esp32-01", some 25, some 60, sampleNow⟩] := by
  constructor
  · exact (claim1_theorem emptyServerState ⟨none, some 60, none, none⟩ sampleNow).1
      (Or.inl rfl)
  · have h := ((claim1_theorem emptyServerState ⟨some 25, some 60, none, none⟩
      sampleNow).2 25 60 sampleNow rfl rfl rfl).1
    simpa using h

/-! ## Claim C2 -/

/-- C2 counterexample: a hub with N = 1 registered connection that is
already closed (readyState 3).  The claim predicts 0 still-registered
connections and 1 unregister side effect after broadcast; the code skips
the closed connection silently, so it stays registered and nothing is
unregistered. -/
theorem claim2_counterexample :
    (broadcastToClients [⟨0, 3, false⟩]).1 = [⟨0, 3, false⟩] ∧
      (broadcastToClients [⟨0, 3, false⟩]).1.length ≠ 0 := by
  decide

/-- C2 (amended): broadcast never throws to its caller (it is a total
function of the client set); a connection is unregistered exactly when it
is OPEN and its send throws — with N registered connections of which K
throw on send, N − K remain registered; an already-closed (non-OPEN)
connection is skipped and stays registered. -/
theorem claim2_theorem (cs : List Client) :
    (broadcastToClients cs).1 =
        cs.filter (fun c => !(c.readyState == 1 && c.sendThrows)) ∧
      (broadcastToClients cs).1.length =
        cs.length - cs.countP (fun c => c.readyState == 1 && c.sendThrows) ∧
      (∀ c, c ∈ cs → c.readyState ≠ 1 → c ∈ (broadcastToClients cs).1) := by
  refine ⟨broadcastToClients_filter cs, broadcastToClients_length cs, ?_⟩
  intro c hc h1
  rw [broadcastToClients_filter]
  refine List.mem_filter.mpr ⟨hc, ?_⟩
  simp [h1]

/-- C2 witness: the amended theorem at a concrete two-client hub. -/
theorem claim2_witness :
    (broadcastToClients [⟨0, 3, false⟩, ⟨1, 1, true⟩]).1.length = 1 ∧
      (⟨0, 3, false⟩ : Client) ∈ (broadcastToClients [⟨0, 3, false⟩, ⟨1, 1, true⟩]).1 := by
  constructor
  · have h := (claim2_theorem [⟨0, 3, false⟩, ⟨1, 1, true⟩]).2.1
    simpa using h
  · exact (claim2_theorem [⟨0, 3, false⟩, ⟨1, 1, true⟩]).2.2 ⟨0, 3, false⟩
      (by decide) (by decide)

/-! ## Claim C3 -/

/-- C3 counterexample: the empty string is a granularity token outside
the closed set (parseGranularity rejects it), yet a query carrying it does
not fail with a client error — the falsy-parameter default silently routes
it to the 1d window. -/
theorem claim3_counterexample :
    parseGranularity "" = none ∧
      historicalGET (some "") none [] sampleNow =
        RouteResult.ok TimeGranularity.g1d "esp32-01" [] := by
  decide

/-- C3 (amended): every nonempty granularity token outside the closed set
{1d, 1m, 3m, 6m, 1y} makes the historical route fail with a 400 client
error; a token inside the set is served with the data computed for that
granularity, and readings older than the granularity's lookback window
never influence the result; the empty (falsy) token is the one exception,
silently defaulting to 1d. -/
theorem claim3_theorem (tok : String) (devParam : Option String)
    (store : List Reading) (now : DateTime) :
    (tok ≠ "" → parseGranularity tok = none →
      historicalGET (some tok) devParam store now =
        RouteResult.clientError 400
          "Invalid time range. Must be one of: 1d, 1m, 3m, 6m, 1y") ∧
      (∀ g, parseGranularity tok = some g →
        historicalGET (some tok) devParam store now =
          RouteResult.ok g (jsOrString devParam "esp32-01")
            (getHistoricalData store now g (jsOrString devParam "esp32-01"))) ∧
      (∀ (g : TimeGranularity) (dev : String) (r : Reading),
        getTime r.timestamp < getTime now - granularityStartOffset g →
        getHistoricalData (store ++ [r]) now g dev =
          getHistoricalData store now g dev) := by
  refine ⟨?_, ?_, ?_⟩
  · intro hne hnone
    simp [historicalGET, jsOrString, hne, hnone]
  · intro g hg
    by_cases htok : tok = ""
    · subst htok
      simp [parseGranularity] at hg
    · simp [historicalGET, jsOrString, htok, hg]
  · intro g dev r hlt
    have hq : runFindMany (store ++ [r]) dev (getTime now - granularityStartOffset g) =
        runFindMany store dev (getTime now - granularityStartOffset g) := by
      rw [runFindMany, runFindMany, List.filter_append]
      have hd : decide (getTime now - granularityStartOffset g ≤ getTime r.timestamp) =
          false := decide_eq_false (not_le.mpr hlt)
      have hfr : List.filter (fun rr : Reading => rr.deviceId == dev &&
          decide (getTime now - granularityStartOffset g ≤ getTime rr.timestamp)) [r] =
          [] := by
        simp only [List.filter_cons, List.filter_nil, hd, Bool.and_false]
        rfl
      rw [hfr, List.append_nil]
    rw [getHistoricalData, getHistoricalData, hq]

/-- C3 witness: the amended theorem at the token 2w (rejected), the token
1m (served), and a reading outside the 1d window (ignored). -/
theorem claim3_witness :
    historicalGET (some "2w") none [] sampleNow =
        RouteResult.clientError 400
          "Invalid time range. Must be one of: 1d, 1m, 3m, 6m, 1y" ∧
      historicalGET (some "1m") none [] sampleNow =
        RouteResult.ok TimeGranularity.g1m "esp32-01"
          (getHistoricalData [] sampleNow TimeGranularity.g1m "esp32-01") ∧
      getHistoricalData ([] ++ [⟨"esp32-01", some 20, some 50, ⟨2024, 6, 13, 12, 0⟩⟩])
          sampleNow TimeGranularity.g1d "esp32-01" =
        getHistoricalData [] sampleNow TimeGranularity.g1d "esp32-01" := by
  refine ⟨?_, ?_, ?_⟩
  · exact (claim3_theorem ("2w") none [] sampleNow).1 (by decide) (by decide)
  · exact (claim3_theorem ("1m") none [] sampleNow).2.1 TimeGranularity.g1m (by decide)
  · exact (claim3_theorem ("x") none [] sampleNow).2.2 TimeGranularity.g1d "esp32-01"
      ⟨"esp32-01", some 20, some 50, ⟨2024, 6, 13, 12, 0⟩⟩ (by decide)

/-! ## Claim C4 -/

/-- The readings of a store that fall in the bucket with the given key. -/
def bucketMembers (tr : TimeGranularity) (rs : List Reading) (k : Int) : List Reading :=
  rs.filter (fun r => bucketKey tr r.timestamp == k)

unseal Rat.mul Rat.inv Rat.add Rat.sub in
/-- C4 counterexample: two readings in one 1d bucket, the first with a
null temperature (humidity 50) and the second with temperature 20
(humidity 60).  Under the claimed independent per-field accumulation the
bucket's temperature average would be 20 (sum 20 over count 1); the code
pushes every reading into both arrays, the null coerces to 0, and the
produced average is 10 — so a reading missing one field does not
contribute only to the other field's sum. -/
theorem claim4_counterexample :
    groupDataByTimeRange
        [⟨"esp32-01", none, some 50, ⟨2024, 6, 15, 10, 5⟩⟩,
         ⟨"esp32-01", some 20, some 60, ⟨2024, 6, 15, 10, 40⟩⟩]
        TimeGranularity.g1d =
      [⟨28640760, 10, 55⟩] ∧
      jsSum [some (20 : ℚ)] / ((1 : ℕ) : ℚ) = 20 ∧ (10 : ℚ) ≠ 20 := by
  refine ⟨by decide, by decide, by decide⟩

unseal Rat.mul Rat.inv Rat.add Rat.sub in
/-- C4 (amended): every bucket averages each field as that field's
JavaScript running sum over all readings of the bucket divided by the
bucket's total reading count — the two fields share one count, every
reading contributes to both arrays (a null field coercing to zero), and no
null average is ever emitted; the concrete scenario (readings at 10:05,
10:40, 11:02 with temperatures 20, 22, 24, queried at 1d) yields exactly
the buckets 10:00 with average 21.0 from 2 readings and 11:00 with average
24.0 from 1 reading. -/
theorem claim4_theorem :
    (∀ (rs : List Reading) (tr : TimeGranularity) (p : AvgPoint),
      p ∈ groupDataByTimeRange rs tr →
      bucketMembers tr rs p.timestamp ≠ [] ∧
        p.temperature =
          jsSum ((bucketMembers tr rs p.timestamp).map (fun r => r.temperature)) /
            ((bucketMembers tr rs p.timestamp).length : ℚ) ∧
        p.humidity =
          jsSum ((bucketMembers tr rs p.timestamp).map (fun r => r.humidity)) /
            ((bucketMembers tr rs p.timestamp).length : ℚ)) ∧
      getHistoricalData scenarioStore sampleNow TimeGranularity.g1d "esp32-01" =
        [⟨28640760, 21, 55⟩, ⟨28640820, 24, 70⟩] ∧
      (bucketMembers TimeGranularity.g1d scenarioStore 28640760).length = 2 ∧
      (bucketMembers TimeGranularity.g1d scenarioStore 28640820).length = 1 := by
  refine ⟨?_, by decide, by decide, by decide⟩
  intro rs tr p hp
  exact groupDataByTimeRange_char rs tr p hp

unseal Rat.mul Rat.inv Rat.add Rat.sub in
/-- C4 witness: the per-bucket characterization of the theorem at a
concrete one-reading store. -/
theorem claim4_witness :
    bucketMembers TimeGranularity.g1d [⟨"a", some 20, some 50, sampleNow⟩]
        28640880 ≠ [] ∧
      (⟨28640880, 20, 50⟩ : AvgPoint).temperature =
        jsSum ((bucketMembers TimeGranularity.g1d
            [⟨"a", some 20, some 50, sampleNow⟩] 28640880).map
          (fun r => r.temperature)) /
          ((bucketMembers TimeGranularity.g1d
            [⟨"a", some 20, some 50, sampleNow⟩] 28640880).length : ℚ) ∧
      (⟨28640880, 20, 50⟩ : AvgPoint).humidity =
        jsSum ((bucketMembers TimeGranularity.g1d
            [⟨"a", some 20, some 50, sampleNow⟩] 28640880).map
          (fun r => r.humidity)) /
          ((bucketMembers TimeGranularity.g1d
            [⟨"a", some 20, some 50, sampleNow⟩] 28640880).length : ℚ) :=
  claim4_theorem.1 [⟨"a", some 20, some 50, sampleNow⟩] TimeGranularity.g1d
    ⟨28640880, 20, 50⟩ (by decide)

/-! ## Claim C5 -/

theorem daysFromCivil_first_le (y m d : Int) (hd : 1 ≤ d) :
    daysFromCivil y m 1 ≤ daysFromCivil y m d := by
  simp only [daysFromCivil]
  split_ifs <;> omega

/-- C5: no emitted bucket is empty (each bucket start is the truncation
of some contributing reading's timestamp), the buckets are sorted by
bucket start ascending, and the bucket boundaries align exactly: the hour
for 1d, midnight for 1m and 3m, midnight of the week start (day-of-week 0)
for 6m, and midnight of the first of the month for 1y; in particular
readings at 12:07 and 12:54 share the 12:00 bucket under 1d. -/
theorem claim5_theorem :
    (∀ (rs : List Reading) (tr : TimeGranularity) (p : AvgPoint),
      p ∈ groupDataByTimeRange rs tr →
      ∃ r, r ∈ rs ∧ bucketKey tr r.timestamp = p.timestamp) ∧
      (∀ (rs : List Reading) (tr : TimeGranularity),
        (groupDataByTimeRange rs tr).Pairwise (fun a b => a.timestamp ≤ b.timestamp)) ∧
      (∀ t : DateTime, 0 ≤ t.minute → t.minute < 60 →
        bucketKey TimeGranularity.g1d t % 60 = 0 ∧
          bucketKey TimeGranularity.g1d t ≤ getTime t ∧
          getTime t - bucketKey TimeGranularity.g1d t < 60) ∧
      (∀ t : DateTime, 0 ≤ t.minute → t.minute < 60 → 0 ≤ t.hour → t.hour < 24 →
        bucketKey TimeGranularity.g1m t % 1440 = 0 ∧
          bucketKey TimeGranularity.g1m t ≤ getTime t ∧
          getTime t - bucketKey TimeGranularity.g1m t < 1440 ∧
          bucketKey TimeGranularity.g3m t = bucketKey TimeGranularity.g1m t) ∧
      (∀ t : DateTime, 0 ≤ t.minute → t.minute < 60 → 0 ≤ t.hour → t.hour < 24 →
        bucketKey TimeGranularity.g6m t % 1440 = 0 ∧
          dayOfWeek (bucketKey TimeGranularity.g6m t / 1440) = 0 ∧
          bucketKey TimeGranularity.g6m t ≤ getTime t ∧
          getTime t - bucketKey TimeGranularity.g6m t < 7 * 1440) ∧
      (∀ t : DateTime, 1 ≤ t.day → 0 ≤ t.hour → 0 ≤ t.minute →
        bucketKey TimeGranularity.g1y t =
            getTime ⟨t.year, t.month, 1, 0, 0⟩ ∧
          bucketKey TimeGranularity.g1y t ≤ getTime t) ∧
      (bucketKey TimeGranularity.g1d ⟨2024, 6, 15, 12, 7⟩ =
          bucketKey TimeGranularity.g1d ⟨2024, 6, 15, 12, 54⟩ ∧
        bucketKey TimeGranularity.g1d ⟨2024, 6, 15, 12, 7⟩ =
          getTime ⟨2024, 6, 15, 12, 0⟩) := by
  refine ⟨?_, groupDataByTimeRange_sorted, ?_, ?_, ?_, ?_, by decide⟩
  · intro rs tr p hp
    have h := (groupDataByTimeRange_char rs tr p hp).1
    obtain ⟨r, hr⟩ := List.exists_mem_of_ne_nil _ h
    have hm := List.mem_filter.mp hr
    exact ⟨r, hm.1, by simpa using hm.2⟩
  · intro t h1 h2
    simp only [bucketKey, getTime]
    omega
  · intro t h1 h2 h3 h4
    simp only [bucketKey, getTime, and_true]
    omega
  · intro t h1 h2 h3 h4
    simp only [bucketKey, getTime, dayOfWeek]
    omega
  · intro t hd hh hm
    constructor
    · simp only [bucketKey, getTime]
      omega
    · simp only [bucketKey, getTime]
      have := daysFromCivil_first_le t.year t.month t.day hd
      omega

unseal Rat.mul Rat.inv Rat.add Rat.sub in
/-- C5 witness: the theorem's membership and alignment statements at
concrete inputs. -/
theorem claim5_witness :
    (∃ r, r ∈ [(⟨"a", some 20, some 50, sampleNow⟩ : Reading)] ∧
        bucketKey TimeGranularity.g1d r.timestamp = 28640880) ∧
      bucketKey TimeGranularity.g1d ⟨2024, 6, 15, 12, 7⟩ % 60 = 0 ∧
      dayOfWeek (bucketKey TimeGranularity.g6m ⟨2024, 6, 15, 12, 7⟩ / 1440) = 0 ∧
      bucketKey TimeGranularity.g1y ⟨2024, 6, 15, 12, 7⟩ =
        getTime ⟨2024, 6, 1, 0, 0⟩ := by
  refine ⟨?_, ?_, ?_, ?_⟩
  · exact claim5_theorem.1 [⟨"a", some 20, some 50, sampleNow⟩]
      TimeGranularity.g1d ⟨28640880, 20, 50⟩ (by decide)
  · exact (claim5_theorem.2.2.1 ⟨2024, 6, 15, 12, 7⟩ (by decide) (by decide)).1
  · exact (claim5_theorem.2.2.2.2.1 ⟨2024, 6, 15, 12, 7⟩ (by decide) (by decide)
      (by decide) (by decide)).2.1
  · exact (claim5_theorem.2.2.2.2.2.1 ⟨2024, 6, 15, 12, 7⟩ (by decide) (by decide)
      (by decide)).1

/-! ## Claim C6 -/

theorem countP_le_one_singleton {α : Type} (p : α → Bool) (x : α) :
    ([x] : List α).countP p ≤ 1 := by
  rw [List.countP_cons, List.countP_nil]
  split <;> omega

/-- C6: the at-most-one-DeviceStatus-row-per-deviceId invariant is
preserved by every message, and an accepted message upserts exactly one
row for its device carrying lastSeen = ingestion time and isOnline =
true — so two accepted messages from one device leave one row, not two. -/
theorem claim6_theorem (s : ServerState) (msg : MqttMessage) (now : DateTime)
    (hinv : ∀ e, s.statuses.countP (fun st => st.deviceId == e) ≤ 1) :
    (∀ e, (handleMessage s msg now).statuses.countP
        (fun st => st.deviceId == e) ≤ 1) ∧
      (∀ t h ts, msg.temperature = some t → msg.humidity = some h →
        effectiveTimestamp msg.timestamp now = some ts →
        (handleMessage s msg now).statuses.countP
            (fun st => st.deviceId == jsOrString msg.deviceId "esp32-01") = 1 ∧
          (⟨jsOrString msg.deviceId "esp32-01", now, true⟩ : DeviceStatus) ∈
            (handleMessage s msg now).statuses) := by
  constructor
  · intro e
    cases mt : msg.temperature with
    | none => rw [handleMessage_rejected s msg now (Or.inl mt)]; exact hinv e
    | some t =>
      cases mh : msg.humidity with
      | none => rw [handleMessage_rejected s msg now (Or.inr mh)]; exact hinv e
      | some h =>
        cases hts : effectiveTimestamp msg.timestamp now with
        | none => rw [handleMessage_invalidDate s msg now t h mt mh hts]; exact hinv e
        | some ts =>
          rw [handleMessage_accepted s msg now t h ts mt mh hts]
          by_cases he : e = jsOrString msg.deviceId "esp32-01"
          · rw [he]
            exact le_of_eq (upsertStatus_countP_self s.statuses
              (jsOrString msg.deviceId "esp32-01") now (hinv _))
          · rw [upsertStatus_countP_other s.statuses _ now e he]
            exact hinv e
  · intro t h ts mt mh hts
    rw [handleMessage_accepted s msg now t h ts mt mh hts]
    exact ⟨upsertStatus_countP_self s.statuses _ now (hinv _),
      upsertStatus_mem s.statuses _ now⟩

/-- C6 witness: two accepted messages from the same device, applied
through the theorem, leave exactly one DeviceStatus row for it. -/
theorem claim6_witness :
    (handleMessage
        (handleMessage emptyServerState ⟨some 20, some 50, none, some "esp32-01"⟩
          sampleNow)
        ⟨some 21, some 51, none, some "esp32-01"⟩ sampleNow).statuses.countP
      (fun st => st.deviceId == "esp32-01") = 1 := by
  have hst : (handleMessage emptyServerState ⟨some 20, some 50, none, some "esp32-01"⟩
      sampleNow).statuses = [⟨"esp32-01", sampleNow, true⟩] := rfl
  have h := (claim6_theorem
      (handleMessage emptyServerState ⟨some 20, some 50, none, some "esp32-01"⟩ sampleNow)
      ⟨some 21, some 51, none, some "esp32-01"⟩ sampleNow
      (by intro e; rw [hst]; exact countP_le_one_singleton _ _)).2
      21 51 sampleNow rfl rfl rfl
  simpa [jsOrString] using h.1

/-! ## Claim C7 -/

/-- C7: a message rejected by validation (both temperature and humidity
absent or non-numeric) persists no Reading, performs no DeviceStatus
upsert, attempts no broadcast, and leaves the state unchanged. -/
theorem claim7_theorem (s : ServerState) (msg : MqttMessage) (now : DateTime)
    (ht : msg.temperature = none) (hh : msg.humidity = none) :
    handleMessage s msg now = s ∧
      (handleMessage s msg now).readings = s.readings ∧
      (handleMessage s msg now).statuses = s.statuses ∧
      (handleMessage s msg now).broadcasts = s.broadcasts := by
  have h := handleMessage_rejected s msg now (Or.inl ht)
  exact ⟨h, by rw [h], by rw [h], by rw [h]⟩

/-- C7 witness: the theorem at a concrete invalid message. -/
theorem claim7_witness :
    handleMessage emptyServerState ⟨none, none, none, some "esp32-01"⟩ sampleNow =
      emptyServerState :=
  (claim7_theorem emptyServerState ⟨none, none, none, some "esp32-01"⟩ sampleNow
    rfl rfl).1

/-! ## Claim C8 -/

/-- C8 counterexample: a message with an unparsable timestamp string.
The claim predicts it defaults to the ingestion-time instant and a Reading
is stored; the code produces an Invalid Date, the storage write rejects
it, and the message is dropped — no Reading at all is stored. -/
theorem claim8_counterexample :
    parseJsDate "not-a-date" = none ∧
      handleMessage emptyServerState
          ⟨some 25, some 60, some "not-a-date", some "esp32-01"⟩ sampleNow =
        emptyServerState := by
  decide

/-- C8 (amended): a missing timestamp field defaults to the ingestion
instant and a missing deviceId to the fallback esp32-01 (an unparsable
timestamp instead drops the message at persistence); the concrete
scenario — ingesting temperature 25.5, humidity 60.2, deviceId esp32-01
with no timestamp — stores a Reading stamped with the ingestion instant
and getCurrentReading returns it. -/
theorem claim8_theorem :
    (∀ now : DateTime, effectiveTimestamp none now = some now) ∧
      (∀ (s : ServerState) (msg : MqttMessage) (now : DateTime) (t h : ℚ)
        (ts : DateTime), msg.temperature = some t → msg.humidity = some h →
        msg.deviceId = none → effectiveTimestamp msg.timestamp now = some ts →
        (handleMessage s msg now).readings =
          s.readings ++ [⟨"esp32-01", some t, some h, ts⟩]) ∧
      (handleMessage emptyServerState
          ⟨some (51 / 2), some (301 / 5), none, some "esp32-01"⟩ sampleNow).readings =
        [⟨"esp32-01", some (51 / 2), some (301 / 5), sampleNow⟩] ∧
      getCurrentReading
          (handleMessage emptyServerState
            ⟨some (51 / 2), some (301 / 5), none, some "esp32-01"⟩ sampleNow).readings
          "esp32-01" =
        some ⟨"esp32-01", some (51 / 2), some (301 / 5), sampleNow⟩ := by
  refine ⟨fun now => rfl, ?_, ?_, ?_⟩
  · intro s msg now t h ts ht hh hdev hts
    rw [handleMessage_accepted s msg now t h ts ht hh hts, hdev]
    rfl
  · rfl
  · rfl

/-- C8 witness: the general defaulting statement of the theorem at a
concrete message with neither timestamp nor deviceId. -/
theorem claim8_witness :
    (handleMessage emptyServerState ⟨some 25, some 60, none, none⟩ sampleNow).readings =
      [⟨"esp32-01", some 25, some 60, sampleNow⟩] := by
  have h := claim8_theorem.2.1 emptyServerState ⟨some 25, some 60, none, none⟩
    sampleNow 25 60 sampleNow rfl rfl rfl rfl
  simpa using h

/-! ## Claim C9 -/

/-- C9: a non-normal close with n prior attempts (n below the maximum of
5) schedules a reconnect after min(1000 · 2^n, 10000) ms; once the attempt
budget is exhausted the provider enters the terminal error status and no
reconnect is scheduled; a normal close (code 1000) never schedules a
reconnect; the connecting status is entered only by the scheduled timer
firing, and with no pending timer the timer event changes nothing. -/
theorem claim9_theorem (s : WsState) (code : Nat) :
    (code = 1000 → (onClose code s).pendingReconnectDelay = s.pendingReconnectDelay) ∧
      (code ≠ 1000 → s.reconnectAttempts < maxReconnectAttempts →
        (onClose code s).pendingReconnectDelay =
            some (min (1000 * 2 ^ s.reconnectAttempts) 10000) ∧
          (onClose code s).connectionStatus = ConnStatus.disconnected) ∧
      (maxReconnectAttempts ≤ s.reconnectAttempts →
        (onClose code s).connectionStatus = ConnStatus.error ∧
          (onClose code s).pendingReconnectDelay = s.pendingReconnectDelay) ∧
      (s.pendingReconnectDelay = none → wsStep s WsEvent.timer = s) ∧
      ((wsStep s WsEvent.opened).connectionStatus ≠ ConnStatus.connecting ∧
        ∀ c2, (wsStep s (WsEvent.closed c2)).connectionStatus ≠ ConnStatus.connecting) := by
  refine ⟨?_, ?_, ?_, ?_, ?_, ?_⟩
  · intro hc
    rw [onClose, if_neg (by simp [hc])]
    by_cases ha : maxReconnectAttempts ≤ s.reconnectAttempts
    · rw [if_pos ha]
    · rw [if_neg ha]
  · intro hc ha
    rw [onClose, if_pos ⟨hc, ha⟩]
    exact ⟨rfl, rfl⟩
  · intro ha
    rw [onClose, if_neg (by simp [maxReconnectAttempts] at ha ⊢; omega), if_pos ha]
    exact ⟨rfl, rfl⟩
  · intro hp
    rw [wsStep, fireReconnectTimer, hp]
  · rw [wsStep, onOpen]
    intro h
    cases h
  · intro c2
    rw [wsStep, onClose]
    by_cases h1 : c2 ≠ 1000 ∧ s.reconnectAttempts < maxReconnectAttempts
    · rw [if_pos h1]
      intro h
      cases h
    · rw [if_neg h1]
      by_cases h2 : maxReconnectAttempts ≤ s.reconnectAttempts
      · rw [if_pos h2]
        intro h
        cases h
      · rw [if_neg h2]
        intro h
        cases h

/-- C9 witness: the theorem at a concrete state and close code. -/
theorem claim9_witness :
    (onClose 1006 ⟨3, ConnStatus.connected, none⟩).pendingReconnectDelay =
        some (min (1000 * 2 ^ 3) 10000) ∧
      (onClose 1006 ⟨5, ConnStatus.connected, none⟩).connectionStatus =
        ConnStatus.error ∧
      (onClose 1000 ⟨0, ConnStatus.connected, none⟩).pendingReconnectDelay = none := by
  refine ⟨?_, ?_, ?_⟩
  · exact ((claim9_theorem ⟨3, ConnStatus.connected, none⟩ 1006).2.1
      (by decide) (by decide)).1
  · exact ((claim9_theorem ⟨5, ConnStatus.connected, none⟩ 1006).2.2.1
      (by decide)).1
  · exact (claim9_theorem ⟨0, ConnStatus.connected, none⟩ 1000).1 rfl

/-! ## Claim C10 -/

/-- C10: a storage read failure during a historical query yields an empty
sequence rather than propagating the error, which makes it
indistinguishable at the query interface from a device with no data. -/
theorem claim10_theorem :
    (∀ (e : String) (g : TimeGranularity), getHistoricalDataFetched (.error e) g = []) ∧
      (∀ (g : TimeGranularity) (store : List Reading) (now : DateTime) (dev : String),
        (∀ r, r ∈ store → r.deviceId ≠ dev) → getHistoricalData store now g dev = []) ∧
      (∀ (e : String) (g : TimeGranularity) (store : List Reading) (now : DateTime)
        (dev : String), (∀ r, r ∈ store → r.deviceId ≠ dev) →
        getHistoricalDataFetched (.error e) g = getHistoricalData store now g dev) := by
  have hempty : ∀ (g : TimeGranularity) (store : List Reading) (now : DateTime)
      (dev : String), (∀ r, r ∈ store → r.deviceId ≠ dev) →
      getHistoricalData store now g dev = [] := by
    intro g store now dev hdev
    rw [getHistoricalData]
    have hf : store.filter (fun r => r.deviceId == dev &&
        decide (getTime now - granularityStartOffset g ≤ getTime r.timestamp)) = [] := by
      rw [List.filter_eq_nil_iff]
      intro r hr
      simp [hdev r hr]
    rw [getHistoricalDataFetched, runFindMany, hf]
    rfl
  exact ⟨fun e g => rfl, hempty, fun e g store now dev hdev => (hempty g store now dev hdev).symm⟩

/-- C10 witness: the theorem at a concrete failed fetch and a concrete
store holding only another device's reading. -/
theorem claim10_witness :
    getHistoricalDataFetched (.error "db down") TimeGranularity.g1d = [] ∧
      getHistoricalData [⟨"other", some 20, some 50, sampleNow⟩] sampleNow
        TimeGranularity.g1d "esp32-01" = [] := by
  constructor
  · exact claim10_theorem.1 "db down" TimeGranularity.g1d
  · exact claim10_theorem.2.1 TimeGranularity.g1d
      [⟨"other", some 20, some 50, sampleNow⟩] sampleNow "esp32-01" (by decide)

end IotMqtt
